import Mathlib

/-!
Shallow embedding of the authentication and session-lifecycle subsystem of
the digitaloffices repository (Fastify auth routes over a Prisma/Postgres
store).  The handlers are translated from the auth routes source file
(`/register`, `/login`, `/google`, `/verify-email`, `/refresh`,
`DELETE /me`), the database state from the Prisma migration
(`User`, `RefreshSession`, `ExpertProfile`, `OrganizationProfile`,
`AdminProfile` tables and their unique indexes).

Modelling conventions:
* timestamps are `Nat` milliseconds (JS `Date.now()`);
* `crypto.createHash("sha256")` and `bcrypt.hash` are modelled as injective
  tagging functions — the claims depend only on determinism and absence of
  collisions, not on the digest internals;
* `crypto.randomBytes(...)` values and generated usernames/row ids are
  supplied by the caller as explicit entropy arguments;
* Prisma `create`/`update` enforce the unique indexes of the migration
  (`User_email_key`, `User_username_key`, `User_googleId_key`,
  `User_emailVerificationToken_key`, `User_passwordResetToken_key`,
  `RefreshSession_tokenHash_key`); a violation makes the operation fail,
  and an uncaught failure surfaces as a generic 500 response, matching
  Fastify's default error handler (Postgres unique indexes ignore NULLs,
  so only `some`-valued columns are compared);
* the external collaborators (strict email validation with its DNS lookup,
  Google id-token verification) are modelled by their results passed as
  arguments: a boolean validity for `validateEmailStrict`, an
  `Option GooglePayload` for `googleClient.verifyIdToken`.
-/

namespace DigitalOffices

/-- One row of the `User` table (migration 20251229012202), restricted to the
columns the auth routes read or write. -/
structure User where
  id : String
  email : String
  username : String
  name : String
  avatarUrl : Option String
  passwordHash : Option String
  googleId : Option String
  deletedAt : Option Nat
  emailVerifiedAt : Option Nat
  emailVerificationToken : Option String
  emailVerificationExpiresAt : Option Nat
  passwordResetToken : Option String
  promotionalEmailsEnabled : Bool
  emailNotificationsEnabled : Bool
  themePreference : String
  deriving Repr, DecidableEq

/-- One row of the `RefreshSession` table. -/
structure RefreshSession where
  id : String
  tokenHash : String
  userId : String
  expiresAt : Nat
  ipAddress : String
  userAgent : String
  deriving Repr, DecidableEq

/-- The database state: the `User` table, the three persona tables (each
persona row is keyed by its owning user id, `userId` unique per table), and
the `RefreshSession` table. -/
structure Db where
  users : List User
  expertProfiles : List String
  orgProfiles : List String
  adminProfiles : List String
  sessions : List RefreshSession
  deriving Repr, DecidableEq

/-- Stand-in for `crypto.createHash("sha256").update(s).digest("hex")`:
an injective tag, since the claims rely only on the digest being
deterministic and collision-free. -/
def sha256hex (s : String) : String := "sha256." ++ s

/-- Stand-in for `bcrypt.hash(pw, 10)`. -/
def bcryptHash (pw : String) : String := "bcrypt." ++ pw

/-- Stand-in for `bcrypt.compare(pw, hash)`: succeeds exactly when the hash
was produced from this password. -/
def bcryptCompare (pw h : String) : Bool := h == bcryptHash pw

theorem sha256hex_injective : Function.Injective sha256hex := by
  intro a b h
  have hd : ("sha256." ++ a).data = ("sha256." ++ b).data := by
    simp only [sha256hex] at h
    rw [h]
  simp only [String.data_append] at hd
  exact String.ext (List.append_cancel_left hd)

/-- `prisma.user.findUnique({ where: { email } })`. -/
def findUserByEmail (db : Db) (e : String) : Option User :=
  db.users.find? (fun u => u.email == e)

/-- `prisma.user.findUnique({ where: { googleId } })`. -/
def findUserByGoogleId (db : Db) (g : String) : Option User :=
  db.users.find? (fun u => u.googleId == some g)

/-- `prisma.user.findUnique({ where: { emailVerificationToken: token } })`. -/
def findUserByVerificationToken (db : Db) (t : String) : Option User :=
  db.users.find? (fun u => u.emailVerificationToken == some t)

/-- `prisma.user.findUnique({ where: { id } })`. -/
def findUserById (db : Db) (i : String) : Option User :=
  db.users.find? (fun u => u.id == i)

/-- `prisma.refreshSession.findUnique({ where: { tokenHash } })`. -/
def findSessionByHash (db : Db) (h : String) : Option RefreshSession :=
  db.sessions.find? (fun s => s.tokenHash == h)

/-- The role-flag vector of the access-token payload: derived from which
persona rows exist for the account (`!!user.expertProfile` etc.). -/
structure Roles where
  isExpert : Bool
  isOrg : Bool
  isAdmin : Bool
  deriving Repr, DecidableEq

/-- Derive the role flags of a user from the persona tables. -/
def rolesOf (db : Db) (uid : String) : Roles :=
  { isExpert := db.expertProfiles.contains uid
    isOrg := db.orgProfiles.contains uid
    isAdmin := db.adminProfiles.contains uid }

/-- The payload signed into an access token by `fastify.jwt.sign`. -/
structure AccessToken where
  id : String
  roles : Roles
  deriving Repr, DecidableEq

/-- Stand-in for `fastify.jwt.sign(payload, { expiresIn: "15m" })`: an
injective encoding of the payload into the cookie string. -/
def jwtSign (t : AccessToken) : String :=
  "jwt." ++ t.id ++ "." ++ (if t.roles.isExpert then "E" else "-")
    ++ (if t.roles.isOrg then "O" else "-")
    ++ (if t.roles.isAdmin then "A" else "-")

/-- One `reply.setCookie` call (name, value, path option, maxAge seconds). -/
structure SetCookie where
  name : String
  value : String
  path : Option String
  maxAge : Nat
  deriving Repr, DecidableEq

/-- One `reply.clearCookie` call (name and the path option, when passed). -/
structure ClearCookie where
  name : String
  path : Option String
  deriving Repr, DecidableEq

/-- The JSON response body: the `message` field plus the optional fields the
auth routes ever send.  Two bodies are byte-identical exactly when they are
equal as values of this structure. -/
structure Body where
  message : String
  error : Option String := none
  code : Option String := none
  isUnverified : Option Bool := none
  userJson : Option String := none
  deriving Repr, DecidableEq

/-- An HTTP response: status, JSON body, and the cookie operations applied
to the reply. -/
structure Response where
  status : Nat
  body : Body
  setCookies : List SetCookie := []
  clearCookies : List ClearCookie := []
  deriving Repr, DecidableEq

/-- The generic 500 produced by Fastify's default error handler when a
database error escapes the handler. -/
def serverError : Response :=
  { status := 500, body := { message := "Internal Server Error" } }

/-- Uniqueness check of a fresh `User` row against the unique indexes
`User_email_key`, `User_username_key`, `User_googleId_key`,
`User_emailVerificationToken_key`, `User_passwordResetToken_key`
(`NULL`s are exempt, as in Postgres). -/
def userConflict (db : Db) (u : User) : Bool :=
  db.users.any (fun v =>
    v.email == u.email || v.username == u.username ||
    (u.googleId.isSome && v.googleId == u.googleId) ||
    (u.emailVerificationToken.isSome &&
      v.emailVerificationToken == u.emailVerificationToken) ||
    (u.passwordResetToken.isSome &&
      v.passwordResetToken == u.passwordResetToken))

/-- `prisma.user.create`: fails (unique-violation) on conflict. -/
def createUser (db : Db) (u : User) : Option Db :=
  if userConflict db u then none
  else some { db with users := db.users ++ [u] }

/-- Uniqueness check of an updated `User` row against every other row. -/
def updateUserConflict (db : Db) (u : User) : Bool :=
  db.users.any (fun v =>
    v.id != u.id &&
    (v.email == u.email || v.username == u.username ||
     (u.googleId.isSome && v.googleId == u.googleId) ||
     (u.emailVerificationToken.isSome &&
       v.emailVerificationToken == u.emailVerificationToken) ||
     (u.passwordResetToken.isSome &&
       v.passwordResetToken == u.passwordResetToken)))

/-- Replace the row whose id matches `u.id` by `u`. -/
def replaceById (l : List User) (u : User) : List User :=
  l.map (fun v => if v.id == u.id then u else v)

/-- `prisma.user.update({ where: { id: u.id }, data: ... })`: replaces the
row with that id; fails on a unique-violation against another row. -/
def updateUser (db : Db) (u : User) : Option Db :=
  if updateUserConflict db u then none
  else some { db with users := replaceById db.users u }

/-- `prisma.refreshSession.create`: enforces `RefreshSession_tokenHash_key`. -/
def createSession (db : Db) (s : RefreshSession) : Option Db :=
  if db.sessions.any (fun t => t.tokenHash == s.tokenHash) then none
  else some { db with sessions := db.sessions ++ [s] }

/-- `prisma.refreshSession.delete({ where: { id } })`. -/
def deleteSessionById (db : Db) (i : String) : Db :=
  { db with sessions := db.sessions.filter (fun s => s.id != i) }

/-- The body of `POST /register` (password, email and name are required by
`registerSchema`; `initialRole` is kept as the raw optional string so that
the schema's enum check is part of the model). -/
structure RegisterRequest where
  email : String
  password : String
  name : String
  promotionalEmails : Option Bool
  initialRole : Option String
  deriving Repr, DecidableEq

/-- Random values consumed by `/register`: the generated row id, the
generated unique username, and `crypto.randomBytes(32).toString("hex")`
for the verification token. -/
structure RegisterEntropy where
  userId : String
  username : String
  emailToken : String
  deriving Repr, DecidableEq

/-- `registerSchema` validation performed by Fastify before the handler:
`password` minLength 8, `name` minLength 2, `initialRole` restricted to
the enum `USER | EXPERT | ORGANIZATION` when present. -/
def registerSchemaValid (r : RegisterRequest) : Bool :=
  8 ≤ r.password.length && 2 ≤ r.name.length &&
  (match r.initialRole with
   | none => true
   | some s => s == "USER" || s == "EXPERT" || s == "ORGANIZATION")

/-- Step B of the registration transaction: create the requested persona
row.  Only the literal values `EXPERT` and `ORGANIZATION` create a row;
every other value creates nothing (and `ADMIN` cannot reach this point,
being outside the schema enum). -/
def createPersonaRows (db : Db) (initialRole : Option String) (uid : String) : Db :=
  if initialRole == some "EXPERT" then
    { db with expertProfiles := db.expertProfiles ++ [uid] }
  else if initialRole == some "ORGANIZATION" then
    { db with orgProfiles := db.orgProfiles ++ [uid] }
  else db

/-- `POST /register`.  `emailCheckValid` is the result of the external
`validateEmailStrict` collaborator (syntax, disposable-domain blocklist and
MX lookup). -/
def register (db : Db) (now : Nat) (emailCheckValid : Bool)
    (r : RegisterRequest) (ent : RegisterEntropy) : Response × Db :=
  if ¬ registerSchemaValid r then
    ({ status := 400, body := { message := "Bad Request" } }, db)
  else if ¬ emailCheckValid then
    ({ status := 400,
       body := { message := "Email Validation Failed",
                 error := some "Email Validation Failed" } }, db)
  else
    match findUserByEmail db r.email with
    | some _ => ({ status := 409, body := { message := "Email already exists" } }, db)
    | none =>
      let newUser : User :=
        { id := ent.userId
          email := r.email
          username := ent.username
          name := r.name
          avatarUrl := none
          passwordHash := some (bcryptHash r.password)
          googleId := none
          deletedAt := none
          emailVerifiedAt := none
          emailVerificationToken := some ent.emailToken
          emailVerificationExpiresAt := some (now + 24 * 60 * 60 * 1000)
          passwordResetToken := none
          promotionalEmailsEnabled := r.promotionalEmails.getD false
          emailNotificationsEnabled := true
          themePreference := "SYSTEM" }
      match createUser db newUser with
      | none => (serverError, db)
      | some db1 =>
        ({ status := 201,
           body := { message := "Account created. Please check your email to verify." } },
         createPersonaRows db1 r.initialRole newUser.id)

/-- The body of `POST /login`. -/
structure LoginRequest where
  email : String
  password : String
  deriving Repr, DecidableEq

/-- Random values consumed by a successful login: the new session row id and
`crypto.randomBytes(40).toString("hex")` for the refresh secret. -/
structure SessionEntropy where
  sessionId : String
  refreshSecret : String
  deriving Repr, DecidableEq

/-- The generic anti-enumeration response of `/login`. -/
def invalidCredentials : Response :=
  { status := 401, body := { message := "Invalid credentials" } }

/-- The soft-deleted response of `/login`. -/
def accountDisabledLogin : Response :=
  { status := 403, body := { message := "Account is disabled or deleted." } }

/-- The unverified-email response of `/login` (the `isUnverified` flag tells
the client to check its inbox). -/
def emailUnverified : Response :=
  { status := 403,
    body := { message := "Email not verified. Please check your inbox.",
              isUnverified := some true } }

/-- The JSON user descriptor returned by `/login` (injectively encoded; the
claims only compare bodies for equality). -/
def userDtoJson (u : User) (roles : Roles) : String :=
  "dto." ++ u.id ++ "." ++ u.email ++ "." ++ u.username ++ "." ++ u.name
    ++ "." ++ (u.avatarUrl.getD "-")
    ++ "." ++ (if roles.isExpert then "E" else "-")
    ++ (if roles.isOrg then "O" else "-")
    ++ (if roles.isAdmin then "A" else "-")
    ++ "." ++ u.themePreference
    ++ "." ++ (if u.emailNotificationsEnabled then "n1" else "n0")

/-- `POST /login`. -/
def login (db : Db) (now : Nat) (r : LoginRequest) (ip ua : String)
    (ent : SessionEntropy) : Response × Db :=
  match findUserByEmail db r.email with
  | none => (invalidCredentials, db)
  | some u =>
    match u.passwordHash with
    | none => (invalidCredentials, db)
    | some ph =>
      if u.deletedAt.isSome then
        (accountDisabledLogin, db)
      else if u.emailVerifiedAt.isNone then
        (emailUnverified, db)
      else if ¬ bcryptCompare r.password ph then
        (invalidCredentials, db)
      else
        let roles := rolesOf db u.id
        let accessToken := jwtSign { id := u.id, roles := roles }
        let refreshTokenHash := sha256hex ent.refreshSecret
        match createSession db
            { id := ent.sessionId
              tokenHash := refreshTokenHash
              userId := u.id
              expiresAt := now + 7 * 24 * 60 * 60 * 1000
              ipAddress := ip
              userAgent := ua } with
        | none => (serverError, db)
        | some db1 =>
          ({ status := 200
             body := { message := "Login successful",
                       userJson := some (userDtoJson u roles) }
             setCookies :=
               [ { name := "accessToken", value := accessToken,
                   path := some "/", maxAge := 15 * 60 },
                 { name := "refreshToken", value := ent.refreshSecret,
                   path := some "/api/auth/refresh", maxAge := 7 * 24 * 60 * 60 } ] },
           db1)

/-- The verified payload extracted from a Google id token (`ticket.getPayload()`);
`email` is optional there, matching the incomplete-profile check. -/
structure GooglePayload where
  email : Option String
  sub : String
  name : Option String
  picture : Option String
  deriving Repr, DecidableEq

/-- Random values consumed by `/google` when it must create a fresh account. -/
structure GoogleEntropy where
  userId : String
  username : String
  session : SessionEntropy
  deriving Repr, DecidableEq

/-- The soft-deleted response of `/google`. -/
def accountDisabledGoogle : Response :=
  { status := 403, body := { message := "Account is disabled." } }

/-- Token issuance and cookie setting shared by the tail of `/google`
(identical to the login tail except for the body message). -/
def googleIssueTokens (db : Db) (now : Nat) (u : User) (ip ua : String)
    (ent : SessionEntropy) : Response × Db :=
  let roles := rolesOf db u.id
  let accessToken := jwtSign { id := u.id, roles := roles }
  let refreshTokenHash := sha256hex ent.refreshSecret
  match createSession db
      { id := ent.sessionId
        tokenHash := refreshTokenHash
        userId := u.id
        expiresAt := now + 7 * 24 * 60 * 60 * 1000
        ipAddress := ip
        userAgent := ua } with
  | none => (serverError, db)
  | some db1 =>
    ({ status := 200
       body := { message := "Google Login Successful",
                 userJson := some (userDtoJson u roles) }
       setCookies :=
         [ { name := "accessToken", value := accessToken,
             path := some "/", maxAge := 15 * 60 },
           { name := "refreshToken", value := ent.refreshSecret,
             path := some "/api/auth/refresh", maxAge := 7 * 24 * 60 * 60 } ] },
     db1)

/-- The account-linking update of `/google`: attach the Google subject id,
backfill the avatar if unset, and mark the email verified (Google is
trusted as verifier).  `deletedAt` is untouched. -/
def linkGoogle (existingEmailUser : User) (sub : String)
    (picture : Option String) (now : Nat) : User :=
  { existingEmailUser with
      googleId := some sub
      avatarUrl :=
        match existingEmailUser.avatarUrl with
        | some a => some a
        | none => picture
      emailVerifiedAt := some now }

/-- `POST /google`.  `payload` is the result of the external
`googleClient.verifyIdToken` collaborator: `none` when verification throws. -/
def google (db : Db) (now : Nat) (payload : Option GooglePayload)
    (ip ua : String) (ent : GoogleEntropy) : Response × Db :=
  match payload with
  | none => ({ status := 401, body := { message := "Invalid Google Token" } }, db)
  | some p =>
    match p.email with
    | none => ({ status := 400, body := { message := "Incomplete Google Profile" } }, db)
    | some em =>
      let resolved : Option (User × Db) :=
        match findUserByGoogleId db p.sub with
        | some u => some (u, db)
        | none =>
          match findUserByEmail db em with
          | some existingEmailUser =>
            let linked : User := linkGoogle existingEmailUser p.sub p.picture now
            match updateUser db linked with
            | none => none
            | some db1 => some (linked, db1)
          | none =>
            let fresh : User :=
              { id := ent.userId
                email := em
                username := ent.username
                name := p.name.getD "Google User"
                avatarUrl := p.picture
                passwordHash := none
                googleId := some p.sub
                deletedAt := none
                emailVerifiedAt := some now
                emailVerificationToken := none
                emailVerificationExpiresAt := none
                passwordResetToken := none
                promotionalEmailsEnabled := false
                emailNotificationsEnabled := true
                themePreference := "SYSTEM" }
            match createUser db fresh with
            | none => none
            | some db1 => some (fresh, db1)
      match resolved with
      | none => (serverError, db)
      | some (u, db1) =>
        if u.deletedAt.isSome then
          (accountDisabledGoogle, db1)
        else
          googleIssueTokens db1 now u ip ua ent.session

/-- The expired-token response of `/verify-email`, carrying the
machine-readable `TOKEN_EXPIRED` code. -/
def tokenExpired : Response :=
  { status := 400,
    body := { message := "Token expired. Please request a new one.",
              code := some "TOKEN_EXPIRED" } }

/-- `POST /verify-email`. -/
def verifyEmail (db : Db) (now : Nat) (token : String) : Response × Db :=
  match findUserByVerificationToken db token with
  | none => ({ status := 400, body := { message := "Invalid or expired token" } }, db)
  | some u =>
    if (match u.emailVerificationExpiresAt with
        | some exp => decide (exp < now)
        | none => false) then
      (tokenExpired, db)
    else
      match updateUser db
          { u with
              emailVerifiedAt := some now
              emailVerificationToken := none
              emailVerificationExpiresAt := none } with
      | none => (serverError, db)
      | some db1 =>
        ({ status := 200,
           body := { message := "Email verified successfully. You may now login." } },
         db1)

/-- Random values consumed by `/refresh`: the rotated secret and the row ids
of the two `refreshSession.create` calls appearing in the source. -/
structure RefreshEntropy where
  refreshSecret : String
  sessionId : String
  sessionId2 : String
  deriving Repr, DecidableEq

/-- The 401 branch of `/refresh`, which clears both cookies
(`clearCookie("accessToken")` with no options, `clearCookie("refreshToken",
{ path: "/api/auth/refresh" })`). -/
def refreshSessionExpired : Response :=
  { status := 401
    body := { message := "Session expired" }
    clearCookies :=
      [ { name := "accessToken", path := none },
        { name := "refreshToken", path := some "/api/auth/refresh" } ] }

/-- `POST /refresh`, translated with the two consecutive
`refreshSession.create` calls of the source (lines 440-448 and 463-471),
both inserting the same `newRefreshTokenHash`. -/
def refresh (db : Db) (now : Nat) (cookie : Option String) (ip ua : String)
    (ent : RefreshEntropy) : Response × Db :=
  match cookie with
  | none => ({ status := 401, body := { message := "No refresh token" } }, db)
  | some rt =>
    let tokenHash := sha256hex rt
    match findSessionByHash db tokenHash with
    | none => (refreshSessionExpired, db)
    | some session =>
      if session.expiresAt < now then
        (refreshSessionExpired, deleteSessionById db session.id)
      else
        match findUserById db session.userId with
        | none => (serverError, db)
        | some user =>
          let db1 := deleteSessionById db session.id
          let newRefreshTokenHash := sha256hex ent.refreshSecret
          match createSession db1
              { id := ent.sessionId
                tokenHash := newRefreshTokenHash
                userId := user.id
                expiresAt := now + 7 * 24 * 60 * 60 * 1000
                ipAddress := ip
                userAgent := ua } with
          | none => (serverError, db1)
          | some db2 =>
            let newAccessToken :=
              jwtSign { id := user.id, roles := rolesOf db user.id }
            match createSession db2
                { id := ent.sessionId2
                  tokenHash := newRefreshTokenHash
                  userId := user.id
                  expiresAt := now + 7 * 24 * 60 * 60 * 1000
                  ipAddress := ip
                  userAgent := ua } with
            | none => (serverError, db2)
            | some db3 =>
              ({ status := 200
                 body := { message := "Token refreshed" }
                 setCookies :=
                   [ { name := "refreshToken", value := ent.refreshSecret,
                       path := some "/api/auth/refresh", maxAge := 7 * 24 * 60 * 60 },
                     { name := "accessToken", value := newAccessToken,
                       path := some "/", maxAge := 15 * 60 } ] },
               db3)

/-- The anonymized row written by the `DELETE /me` transaction: scrambled
unique PII, cleared sensitive and token fields, soft-delete timestamp set. -/
def anonymizedUser (existing : User) (now : Nat) (anonymizedSuffix : String) : User :=
  { existing with
      name := "Deleted User"
      email := anonymizedSuffix ++ "@deleted.local"
      username := anonymizedSuffix
      avatarUrl := none
      googleId := none
      passwordHash := none
      emailVerificationToken := none
      passwordResetToken := none
      deletedAt := some now }

/-- The 200 response of `DELETE /me`; both `clearCookie` calls are made with
no options, so neither carries a path. -/
def deleteSelfOk : Response :=
  { status := 200
    body := { message :=
      "Account deleted successfully. Your data has been anonymized." }
    clearCookies :=
      [ { name := "accessToken", path := none },
        { name := "refreshToken", path := none } ] }

/-- `DELETE /me`.  `auth` is the verified JWT subject (`none` when
`jwtVerify` throws); `suffixBytes` is `crypto.randomBytes(8).toString("hex")`
used in the anonymized placeholder. -/
def deleteSelf (db : Db) (now : Nat) (auth : Option String)
    (suffixBytes : String) : Response × Db :=
  match auth with
  | none => ({ status := 401, body := { message := "Unauthorized" } }, db)
  | some uid =>
    match findUserById db uid with
    | none => (deleteSelfOk, db)
    | some existing =>
      if existing.deletedAt.isSome then
        (deleteSelfOk, db)
      else
        let anonymized : User :=
          anonymizedUser existing now ("deleted_" ++ suffixBytes)
        match updateUser db anonymized with
        | none => (serverError, db)
        | some db1 =>
          (deleteSelfOk,
           { db1 with sessions := db1.sessions.filter (fun s => s.userId != uid) })

/-- The spec's soft-delete data invariant: every account with a non-null
soft-delete timestamp has password hash, external identity id and
verification/reset tokens all cleared. -/
def anonymizedInvariant (db : Db) : Prop :=
  ∀ u ∈ db.users, u.deletedAt.isSome →
    u.passwordHash = none ∧ u.googleId = none ∧
    u.emailVerificationToken = none ∧ u.passwordResetToken = none

instance (db : Db) : Decidable (anonymizedInvariant db) := by
  unfold anonymizedInvariant
  infer_instance

/-! ### Structural lemmas about the store operations -/

theorem createPersonaRows_users (db : Db) (role : Option String) (uid : String) :
    (createPersonaRows db role uid).users = db.users := by
  unfold createPersonaRows
  split
  · rfl
  · split <;> rfl

theorem createPersonaRows_admin (db : Db) (role : Option String) (uid : String) :
    (createPersonaRows db role uid).adminProfiles = db.adminProfiles := by
  unfold createPersonaRows
  split
  · rfl
  · split <;> rfl

theorem createSession_some_eq {db db' : Db} {s : RefreshSession}
    (h : createSession db s = some db') :
    db' = { db with sessions := db.sessions ++ [s] } := by
  unfold createSession at h
  split at h
  · exact absurd h (by simp)
  · exact (Option.some.inj h).symm

theorem createUser_some_eq {db db' : Db} {u : User}
    (h : createUser db u = some db') :
    db' = { db with users := db.users ++ [u] } ∧ userConflict db u = false := by
  unfold createUser at h
  split at h
  · exact absurd h (by simp)
  · exact ⟨(Option.some.inj h).symm, Bool.not_eq_true _ ▸ eq_false_of_ne_true ‹¬ _›⟩

theorem updateUser_some_eq {db db' : Db} {u : User}
    (h : updateUser db u = some db') :
    db' = { db with users := replaceById db.users u } := by
  unfold updateUser at h
  split at h
  · exact absurd h (by simp)
  · exact (Option.some.inj h).symm

/-! ### Concrete fixtures used by counterexamples and witnesses -/

/-- A verified account with a password hash. -/
def aliceVerified : User :=
  { id := "u1", email := "alice@example.com", username := "blue-cat", name := "Al",
    avatarUrl := none, passwordHash := some (bcryptHash "pw123456"),
    googleId := none, deletedAt := none, emailVerifiedAt := some 5,
    emailVerificationToken := none, emailVerificationExpiresAt := none,
    passwordResetToken := none, promotionalEmailsEnabled := false,
    emailNotificationsEnabled := true, themePreference := "SYSTEM" }

/-- A registered account with a password hash whose email is not yet
verified. -/
def bobUnverified : User :=
  { id := "u2", email := "bob@example.com", username := "red-dog", name := "Bo",
    avatarUrl := none, passwordHash := some (bcryptHash "pw123456"),
    googleId := none, deletedAt := none, emailVerifiedAt := none,
    emailVerificationToken := some "tok1",
    emailVerificationExpiresAt := some 10,
    passwordResetToken := none, promotionalEmailsEnabled := false,
    emailNotificationsEnabled := true, themePreference := "SYSTEM" }

/-- An account already anonymized by `DELETE /me` with suffix
`deleted_cafebabe`: soft-deleted, all sensitive fields cleared. -/
def anonDeleted : User :=
  { id := "u9", email := "deleted_cafebabe@deleted.local",
    username := "deleted_cafebabe", name := "Deleted User",
    avatarUrl := none, passwordHash := none,
    googleId := none, deletedAt := some 1, emailVerifiedAt := some 1,
    emailVerificationToken := none, emailVerificationExpiresAt := none,
    passwordResetToken := none, promotionalEmailsEnabled := false,
    emailNotificationsEnabled := true, themePreference := "SYSTEM" }

/-- A database holding one verified and one unverified account. -/
def loginDb : Db :=
  { users := [aliceVerified, bobUnverified], expertProfiles := [],
    orgProfiles := [], adminProfiles := [], sessions := [] }

/-- A database holding a live account and an already-anonymized one. -/
def mixedDb : Db :=
  { users := [aliceVerified, anonDeleted], expertProfiles := [],
    orgProfiles := [], adminProfiles := [], sessions := [] }

/-- An empty database. -/
def emptyDb : Db :=
  { users := [], expertProfiles := [], orgProfiles := [],
    adminProfiles := [], sessions := [] }

/-- A live refresh session for `aliceVerified` whose secret is `r1`. -/
def aliceSession : RefreshSession :=
  { id := "s1", tokenHash := sha256hex "r1", userId := "u1",
    expiresAt := 1000000, ipAddress := "ip1", userAgent := "ua1" }

/-- A database in which `aliceVerified` holds the live session
`aliceSession`. -/
def refreshDb : Db :=
  { users := [aliceVerified], expertProfiles := [], orgProfiles := [],
    adminProfiles := [], sessions := [aliceSession] }

/-! ### Claims -/

/-- C1: the spec says a refresh request presenting a valid secret deletes
the matched row, inserts exactly one new `RefreshSession` row with a fresh
hash and a 7-day expiry, mints a new access token, and sets both cookies to
the new values.  The source instead calls `refreshSession.create` twice
with the same `newRefreshTokenHash` (lines 440-448 and 463-471); the second
insert violates the `RefreshSession_tokenHash_key` unique index, so the
handler throws after the first insert: the request returns a 500 and no
cookie is ever set, although the state has rotated (old row deleted, one
new row present).  This theorem evaluates the translated code at a concrete
failing input. -/
theorem C1_refresh_double_insert_500 :
  refresh refreshDb 500 (some "r1") "ip2" "ua2"
      { refreshSecret := "r2", sessionId := "s2", sessionId2 := "s3" } =
    (serverError,
     { refreshDb with sessions :=
        [ { id := "s2", tokenHash := sha256hex "r2", userId := "u1",
            expiresAt := 500 + 7 * 24 * 60 * 60 * 1000,
            ipAddress := "ip2", userAgent := "ua2" } ] }) ∧
  serverError.status = 500 ∧ serverError.setCookies = [] := by
  decide

/-- After a refresh request on a valid session, every session row in the
post state either was already present (and is not the matched row) or
carries the hash of the freshly generated secret.  This holds on every exit
path of the rotation, including the 500 path caused by the duplicated
insert. -/
theorem refresh_valid_state
    (db : Db) (now : Nat) (s ip ua : String) (ent : RefreshEntropy)
    (sess : RefreshSession) (user : User)
    (hfind : findSessionByHash db (sha256hex s) = some sess)
    (hvalid : ¬ sess.expiresAt < now)
    (huser : findUserById db sess.userId = some user) :
    ∀ t ∈ (refresh db now (some s) ip ua ent).2.sessions,
      (t ∈ db.sessions ∧ t.id ≠ sess.id) ∨
      t.tokenHash = sha256hex ent.refreshSecret := by
  intro t ht
  simp only [refresh, hfind, huser, hvalid, if_false] at ht
  split at ht
  · left
    simp only [deleteSessionById, List.mem_filter] at ht
    exact ⟨ht.1, by simpa using ht.2⟩
  · rename_i db2 heq
    have hdb2 := createSession_some_eq heq
    subst hdb2
    split at ht
    · simp only [deleteSessionById, List.mem_append, List.mem_singleton,
        List.mem_filter] at ht
      rcases ht with ⟨hmem, hid⟩ | rfl
      · exact Or.inl ⟨hmem, by simpa using hid⟩
      · exact Or.inr rfl
    · rename_i db3 heq2
      have hdb3 := createSession_some_eq heq2
      subst hdb3
      simp only [deleteSessionById, List.mem_append, List.mem_singleton,
        List.mem_filter] at ht
      rcases ht with (⟨hmem, hid⟩ | rfl) | rfl
      · exact Or.inl ⟨hmem, by simpa using hid⟩
      · exact Or.inr rfl
      · exact Or.inr rfl

/-- C2: once a refresh secret has been used in a refresh request that
matched its still-valid session row (rotating the state: the matched row is
deleted and replaced by a row with a fresh hash), a second refresh request
presenting the same secret finds no matching `RefreshSession` row and fails
with status 401, issuing no token and setting no cookie, and leaving the
state untouched.  Hypotheses: the unique index guarantees at most one row
per hash, the rotated secret is fresh, and the session's owner exists
(foreign key). -/
theorem C2_refresh_secret_single_use
    (db : Db) (now now2 : Nat) (s ip ua ip2 ua2 : String)
    (ent ent2 : RefreshEntropy) (sess : RefreshSession) (user : User)
    (hfind : findSessionByHash db (sha256hex s) = some sess)
    (hvalid : ¬ sess.expiresAt < now)
    (huser : findUserById db sess.userId = some user)
    (hunique : ∀ t ∈ db.sessions, t.tokenHash = sha256hex s → t = sess)
    (hfresh : ent.refreshSecret ≠ s) :
    refresh (refresh db now (some s) ip ua ent).2 now2 (some s) ip2 ua2 ent2 =
      (refreshSessionExpired, (refresh db now (some s) ip ua ent).2) ∧
    refreshSessionExpired.status = 401 ∧
    refreshSessionExpired.setCookies = [] := by
  have hsub := refresh_valid_state db now s ip ua ent sess user hfind hvalid huser
  have key : findSessionByHash (refresh db now (some s) ip ua ent).2 (sha256hex s) = none := by
    rw [findSessionByHash, List.find?_eq_none]
    intro t ht hbeq
    have hh : t.tokenHash = sha256hex s := by simpa using hbeq
    rcases hsub t ht with ⟨hmem, hid⟩ | hh2
    · exact hid (congrArg RefreshSession.id (hunique t hmem hh))
    · exact hfresh (sha256hex_injective (hh2.symm.trans hh))
  set st1 := (refresh db now (some s) ip ua ent).2 with hst1
  refine ⟨?_, rfl, rfl⟩
  simp only [refresh, key]

/-- Witness for C2 at a concrete input: `aliceSession`, secret `r1`, rotated
with fresh secret `r2`, then replayed. -/
theorem C2_witness :
    refresh (refresh refreshDb 500 (some "r1") "ip2" "ua2"
        { refreshSecret := "r2", sessionId := "s2", sessionId2 := "s3" }).2
        600 (some "r1") "ip3" "ua3"
        { refreshSecret := "r4", sessionId := "s4", sessionId2 := "s5" } =
      (refreshSessionExpired,
       (refresh refreshDb 500 (some "r1") "ip2" "ua2"
         { refreshSecret := "r2", sessionId := "s2", sessionId2 := "s3" }).2) ∧
    refreshSessionExpired.status = 401 ∧
    refreshSessionExpired.setCookies = [] :=
  C2_refresh_secret_single_use refreshDb 500 600 "r1" "ip2" "ua2" "ip3" "ua3"
    { refreshSecret := "r2", sessionId := "s2", sessionId2 := "s3" }
    { refreshSecret := "r4", sessionId := "s4", sessionId2 := "s5" }
    aliceSession aliceVerified (by decide) (by decide) (by decide)
    (by decide) (by decide)

/-- C3 counterexample: the claim quantifies over every registered email, but
for a registered yet unverified account a wrong-password login answers 403
with the `isUnverified` flag, while an unknown email answers the generic
401, so status and body both differ and the response does reveal that the
email is registered. -/
theorem C3_counterexample :
  (login loginDb 100 { email := "bob@example.com", password := "wrongpw" }
      "ip" "ua" { sessionId := "s1", refreshSecret := "r1" }).1 = emailUnverified ∧
  (login loginDb 100 { email := "ghost@example.com", password := "wrongpw" }
      "ip" "ua" { sessionId := "s1", refreshSecret := "r1" }).1 = invalidCredentials ∧
  emailUnverified.status ≠ invalidCredentials.status ∧
  emailUnverified.body ≠ invalidCredentials.body := by
  decide

/-- C3 amended: for every registered email whose account has a password
hash, is email-verified and is not soft-deleted, a login with a wrong
password and a login with an unregistered email return the same generic
`InvalidCredentials` response — same status code, byte-identical body, no
cookie, and no state change — so among such accounts the response does not
reveal whether the email is registered. -/
theorem C3_amended_generic_responses_identical
    (db : Db) (now now2 : Nat) (r r2 : LoginRequest) (ip ua ip2 ua2 : String)
    (ent ent2 : SessionEntropy) (u : User) (ph : String) (vt : Nat)
    (hu : findUserByEmail db r.email = some u)
    (hph : u.passwordHash = some ph)
    (hdel : u.deletedAt = none)
    (hver : u.emailVerifiedAt = some vt)
    (hwrong : bcryptCompare r.password ph = false)
    (hghost : findUserByEmail db r2.email = none) :
    login db now r ip ua ent = (invalidCredentials, db) ∧
    login db now2 r2 ip2 ua2 ent2 = (invalidCredentials, db) := by
  constructor
  · simp [login, hu, hph, hdel, hver, hwrong]
  · simp [login, hghost]

/-- Witness for the amended C3 at a concrete input: `aliceVerified` with a
wrong password versus an unregistered email. -/
theorem C3_amended_witness :
    login loginDb 100 { email := "alice@example.com", password := "wrongpw" }
        "ip" "ua" { sessionId := "s1", refreshSecret := "r1" } =
      (invalidCredentials, loginDb) ∧
    login loginDb 101 { email := "ghost@example.com", password := "anypw" }
        "ip" "ua" { sessionId := "s1", refreshSecret := "r1" } =
      (invalidCredentials, loginDb) :=
  C3_amended_generic_responses_identical loginDb 100 101
    { email := "alice@example.com", password := "wrongpw" }
    { email := "ghost@example.com", password := "anypw" }
    "ip" "ua" "ip" "ua"
    { sessionId := "s1", refreshSecret := "r1" }
    { sessionId := "s1", refreshSecret := "r1" }
    aliceVerified (bcryptHash "pw123456") 5
    (by decide) (by decide) (by decide) (by decide) (by decide) (by decide)

/-- C4: for an account that has a password hash, a null `emailVerifiedAt`
and no soft-delete timestamp, login with the correct password fails with
the 403 `EmailUnverified` response carrying the `isUnverified` flag, never
with the generic `InvalidCredentials` response. -/
theorem C4_unverified_login_fails_email_unverified
    (db : Db) (now : Nat) (r : LoginRequest) (ip ua : String)
    (ent : SessionEntropy) (u : User) (ph : String)
    (hu : findUserByEmail db r.email = some u)
    (hph : u.passwordHash = some ph)
    (hdel : u.deletedAt = none)
    (hunv : u.emailVerifiedAt = none)
    (hpw : bcryptCompare r.password ph = true) :
    login db now r ip ua ent = (emailUnverified, db) ∧
    emailUnverified ≠ invalidCredentials := by
  refine ⟨?_, by decide⟩
  simp [login, hu, hph, hdel, hunv]

/-- Witness for C4 at a concrete input: `bobUnverified` with the correct
password. -/
theorem C4_witness :
    login loginDb 100 { email := "bob@example.com", password := "pw123456" }
        "ip" "ua" { sessionId := "s1", refreshSecret := "r1" } =
      (emailUnverified, loginDb) ∧
    emailUnverified ≠ invalidCredentials :=
  C4_unverified_login_fails_email_unverified loginDb 100
    { email := "bob@example.com", password := "pw123456" } "ip" "ua"
    { sessionId := "s1", refreshSecret := "r1" } bobUnverified
    (bcryptHash "pw123456") (by decide) (by decide) (by decide) (by decide)
    (by decide)

/-- C5: every registration that passes validation, has no email conflict
and commits (status 201) creates an account whose email-verification token
is the fresh 32-byte token, distinct from the verification token stored on
every pre-existing account (enforced by `User_emailVerificationToken_key`:
a colliding insert would have failed the transaction instead of returning
201), and whose stored expiry is exactly 24 hours after `now`. -/
theorem C5_registration_token_unique_and_24h
    (db : Db) (now : Nat) (chk : Bool) (r : RegisterRequest)
    (ent : RegisterEntropy)
    (h201 : (register db now chk r ent).1.status = 201) :
    ∃ u ∈ (register db now chk r ent).2.users,
      u.email = r.email ∧
      u.emailVerificationToken = some ent.emailToken ∧
      u.emailVerificationExpiresAt = some (now + 24 * 60 * 60 * 1000) ∧
      ∀ v ∈ db.users, v.emailVerificationToken ≠ some ent.emailToken := by
  by_cases hv : registerSchemaValid r
  case neg => simp [register, hv] at h201
  by_cases hc : chk = true
  case neg =>
    simp only [Bool.not_eq_true] at hc
    simp [register, hv, hc] at h201
  cases hfe : findUserByEmail db r.email with
  | some u0 => simp [register, hv, hc, hfe] at h201
  | none =>
    simp only [register, hv, hc, hfe, if_true, if_false, not_true, not_false_iff,
      ite_true, ite_false] at h201 ⊢
    split at h201
    · simp [serverError] at h201
    · rename_i db1 heq
      obtain ⟨hdb1, hconf⟩ := createUser_some_eq heq
      subst hdb1
      simp only [heq, createPersonaRows_users]
      refine ⟨_, List.mem_append_right _ (List.mem_singleton_self _), rfl, rfl, rfl, ?_⟩
      intro v hv2 htok
      simp only [userConflict, List.any_eq_false] at hconf
      have := hconf v hv2
      simp only [Bool.or_eq_true, beq_iff_eq, Bool.and_eq_true, Option.isSome_some,
        Option.isSome_none, Bool.false_eq_true, false_and, or_false, true_and,
        not_or] at this
      exact this.2 htok

/-- Witness for C5 at a concrete input: registering a fresh account into
`loginDb` returns 201, and the created token differs from every stored
token. -/
theorem C5_witness :
    ∃ u ∈ (register loginDb 100 true
      { email := "carol@example.com", password := "pw123456", name := "Cy",
        promotionalEmails := none, initialRole := none }
      { userId := "u3", username := "green-owl", emailToken := "tok3" }).2.users,
      u.email = "carol@example.com" ∧
      u.emailVerificationToken = some "tok3" ∧
      u.emailVerificationExpiresAt = some (100 + 24 * 60 * 60 * 1000) ∧
      ∀ v ∈ loginDb.users, v.emailVerificationToken ≠ some "tok3" :=
  C5_registration_token_unique_and_24h loginDb 100 true
    { email := "carol@example.com", password := "pw123456", name := "Cy",
      promotionalEmails := none, initialRole := none }
    { userId := "u3", username := "green-owl", emailToken := "tok3" }
    (by decide)

/-- C6: a verify-email request whose token matches an account whose stored
expiry is in the past fails with the 400 `TOKEN_EXPIRED` response and
leaves the database unchanged (token in place, `emailVerifiedAt` still
null). -/
theorem C6_verify_expired_token_unchanged
    (db : Db) (now : Nat) (t : String) (u : User) (exp : Nat)
    (hu : findUserByVerificationToken db t = some u)
    (hexp : u.emailVerificationExpiresAt = some exp)
    (hlt : exp < now) :
    verifyEmail db now t = (tokenExpired, db) ∧
    tokenExpired.status = 400 ∧
    tokenExpired.body.code = some "TOKEN_EXPIRED" := by
  refine ⟨?_, by decide, by decide⟩
  simp [verifyEmail, hu, hexp, hlt]

/-- Witness for C6 at a concrete input: `bobUnverified` holds token `tok1`
expiring at 10, verified at time 100. -/
theorem C6_witness :
    verifyEmail loginDb 100 "tok1" = (tokenExpired, loginDb) ∧
    tokenExpired.status = 400 ∧
    tokenExpired.body.code = some "TOKEN_EXPIRED" :=
  C6_verify_expired_token_unchanged loginDb 100 "tok1" bobUnverified 10
    (by decide) (by decide) (by decide)

/-- Finding by id after replacing the row with that id yields the
replacement row. -/
theorem find_id_replaceById (l : List User) (uid : String) (ex a : User)
    (h : l.find? (fun u => u.id == uid) = some ex) (ha : a.id = ex.id) :
    (replaceById l a).find? (fun u => u.id == uid) = some a := by
  have hexid : ex.id = uid := by simpa using List.find?_some h
  simp only [replaceById] at *
  induction l with
  | nil => simp at h
  | cons u l ih =>
    cases hu : (u.id == uid) with
    | false =>
      simp only [List.find?_cons, hu] at h
      have hne : (u.id == a.id) = false := by
        rw [ha, hexid]
        exact hu
      have hhead : (if u.id == a.id then a else u) = u := by simp [hne]
      simp only [List.map_cons, hhead, List.find?_cons, hu]
      exact ih h
    | true =>
      simp only [List.find?_cons, hu] at h
      have hue : u = ex := by simpa using h
      subst hue
      have hhead : (if u.id == a.id then a else u) = a := by
        rw [ha]
        simp
      have hcond : (a.id == uid) = true := by
        rw [ha]
        exact hu
      simp only [List.map_cons, hhead, List.find?_cons, hcond]

/-- C7: `deleteSelf` on a live account replaces email and username with the
`deleted_<random>` placeholders (freeing the original email: afterwards no
account carries it), clears `passwordHash`, `googleId` and the
verification/reset tokens, deletes every `RefreshSession` owned by the
account, sets the soft-delete timestamp, and a second `deleteSelf` on the
now-deleted account is a no-op that still returns the same 200 success.
Hypotheses: the caller is the account owner, the fresh suffix does not
collide with another row (else the transaction fails), emails are unique in
the pre-state, and the placeholder differs from the original email. -/
theorem C7_delete_self_anonymizes
    (db : Db) (now now2 : Nat) (uid bytes bytes2 : String) (ex : User)
    (hfind : findUserById db uid = some ex)
    (hlive : ex.deletedAt = none)
    (hnoconf : updateUserConflict db (anonymizedUser ex now ("deleted_" ++ bytes)) = false)
    (hemailUnique : ∀ v ∈ db.users, v.email = ex.email → v = ex)
    (hplaceholder : ("deleted_" ++ bytes) ++ "@deleted.local" ≠ ex.email) :
    deleteSelf db now (some uid) bytes =
      (deleteSelfOk,
       { db with
           users := replaceById db.users (anonymizedUser ex now ("deleted_" ++ bytes))
           sessions := db.sessions.filter (fun s => s.userId != uid) }) ∧
    (anonymizedUser ex now ("deleted_" ++ bytes)).passwordHash = none ∧
    (anonymizedUser ex now ("deleted_" ++ bytes)).googleId = none ∧
    (anonymizedUser ex now ("deleted_" ++ bytes)).emailVerificationToken = none ∧
    (anonymizedUser ex now ("deleted_" ++ bytes)).passwordResetToken = none ∧
    (anonymizedUser ex now ("deleted_" ++ bytes)).deletedAt = some now ∧
    (∀ v ∈ (deleteSelf db now (some uid) bytes).2.users, v.email ≠ ex.email) ∧
    deleteSelf (deleteSelf db now (some uid) bytes).2 now2 (some uid) bytes2 =
      (deleteSelfOk, (deleteSelf db now (some uid) bytes).2) := by
  have hupd : updateUser db (anonymizedUser ex now ("deleted_" ++ bytes)) =
      some { db with
        users := replaceById db.users (anonymizedUser ex now ("deleted_" ++ bytes)) } := by
    simp [updateUser, hnoconf]
  have hmain : deleteSelf db now (some uid) bytes =
      (deleteSelfOk,
       { db with
           users := replaceById db.users (anonymizedUser ex now ("deleted_" ++ bytes))
           sessions := db.sessions.filter (fun s => s.userId != uid) }) := by
    simp only [deleteSelf, hfind, hlive, Option.isSome_none, Bool.false_eq_true,
      if_false, hupd]
  refine ⟨hmain, rfl, rfl, rfl, rfl, rfl, ?_, ?_⟩
  · intro v hvmem
    rw [hmain] at hvmem
    simp only [replaceById, List.mem_map] at hvmem
    obtain ⟨orig, horig, hveq⟩ := hvmem
    by_cases hid : (orig.id == (anonymizedUser ex now ("deleted_" ++ bytes)).id) = true
    · rw [if_pos hid] at hveq
      subst hveq
      exact hplaceholder
    · rw [if_neg hid] at hveq
      subst hveq
      intro hmail
      have horigex := hemailUnique orig horig hmail
      subst horigex
      simp [anonymizedUser] at hid
  · set st1 := (deleteSelf db now (some uid) bytes).2 with hst1
    have hfind2 : findUserById st1 uid =
        some (anonymizedUser ex now ("deleted_" ++ bytes)) := by
      rw [hst1, hmain]
      exact find_id_replaceById db.users uid ex _ hfind rfl
    simp only [deleteSelf, hfind2]
    simp [anonymizedUser]


/-- Witness for C7 at a concrete input: anonymizing `aliceVerified` inside
`loginDb`, then calling `deleteSelf` again. -/
theorem C7_witness :
    deleteSelf loginDb 500 (some "u1") "feedf00d" =
      (deleteSelfOk,
       { loginDb with
           users := replaceById loginDb.users
             (anonymizedUser aliceVerified 500 ("deleted_" ++ "feedf00d"))
           sessions := loginDb.sessions.filter (fun s => s.userId != "u1") }) ∧
    (anonymizedUser aliceVerified 500 ("deleted_" ++ "feedf00d")).passwordHash = none ∧
    (anonymizedUser aliceVerified 500 ("deleted_" ++ "feedf00d")).googleId = none ∧
    (anonymizedUser aliceVerified 500 ("deleted_" ++ "feedf00d")).emailVerificationToken = none ∧
    (anonymizedUser aliceVerified 500 ("deleted_" ++ "feedf00d")).passwordResetToken = none ∧
    (anonymizedUser aliceVerified 500 ("deleted_" ++ "feedf00d")).deletedAt = some 500 ∧
    (∀ v ∈ (deleteSelf loginDb 500 (some "u1") "feedf00d").2.users,
      v.email ≠ aliceVerified.email) ∧
    deleteSelf (deleteSelf loginDb 500 (some "u1") "feedf00d").2 600 (some "u1")
        "feedf00e" =
      (deleteSelfOk, (deleteSelf loginDb 500 (some "u1") "feedf00d").2) :=
  C7_delete_self_anonymizes loginDb 500 600 "u1" "feedf00d" "feedf00e"
    aliceVerified (by decide) (by decide) (by decide) (by decide) (by decide)

/-- C8 counterexample: from a state satisfying the anonymized invariant, a
Google login whose verified payload email equals a soft-deleted account's
placeholder email re-attaches the `googleId` (and re-verifies the email) on
the soft-deleted account before the `deletedAt` check rejects with 403, so
the all-fields-null part of the claim is not preserved by the code. -/
theorem C8_counterexample :
  anonymizedInvariant mixedDb ∧
  (google mixedDb 600
      (some { email := some "deleted_cafebabe@deleted.local", sub := "g77",
              name := some "X", picture := none })
      "ip" "ua"
      { userId := "u10", username := "green-fox",
        session := { sessionId := "s9", refreshSecret := "r9" } }).1 =
    accountDisabledGoogle ∧
  ¬ anonymizedInvariant
      (google mixedDb 600
        (some { email := some "deleted_cafebabe@deleted.local", sub := "g77",
                name := some "X", picture := none })
        "ip" "ua"
        { userId := "u10", username := "green-fox",
          session := { sessionId := "s9", refreshSecret := "r9" } }).2 := by
  decide

/-- A soft-deleted account that still carries a linked Google subject id
(used to exercise the by-subject-id rejection path). -/
def googleLinkedDeleted : User :=
  { anonDeleted with
      id := "u8"
      email := "deleted_beef@deleted.local"
      username := "deleted_beef"
      googleId := some "g9" }

/-- A database holding only `googleLinkedDeleted`. -/
def googleDeletedDb : Db :=
  { users := [googleLinkedDeleted], expertProfiles := [], orgProfiles := [],
    adminProfiles := [], sessions := [] }

/-- C8 amended: (1) password login never succeeds for a soft-deleted
account: whatever its fields, the response status is not 200, no cookie is
set and the state is unchanged; (2) Google login resolving the account by
subject id rejects a soft-deleted account with the 403 response and no
state change; (3) Google login resolving a soft-deleted account by email
never succeeds, sets no cookie and creates no session — but (per the C8
counterexample) it may re-attach the googleId before rejecting; (4)
`deleteSelf` always preserves (and on its update path establishes) the
anonymized invariant: password hash, external identity id and
verification/reset tokens all null on soft-deleted accounts. -/
theorem C8_amended_auth_and_anonymization :
    (∀ (db : Db) (now : Nat) (r : LoginRequest) (ip ua : String)
       (ent : SessionEntropy) (u : User),
       findUserByEmail db r.email = some u → u.deletedAt.isSome →
       (login db now r ip ua ent).1.status ≠ 200 ∧
       (login db now r ip ua ent).2 = db ∧
       (login db now r ip ua ent).1.setCookies = []) ∧
    (∀ (db : Db) (now : Nat) (p : GooglePayload) (ip ua : String)
       (ent : GoogleEntropy) (u : User) (em : String),
       p.email = some em → findUserByGoogleId db p.sub = some u →
       u.deletedAt.isSome →
       google db now (some p) ip ua ent = (accountDisabledGoogle, db)) ∧
    (∀ (db : Db) (now : Nat) (p : GooglePayload) (ip ua : String)
       (ent : GoogleEntropy) (ex : User) (em : String),
       p.email = some em → findUserByGoogleId db p.sub = none →
       findUserByEmail db em = some ex → ex.deletedAt.isSome →
       (google db now (some p) ip ua ent).1.status ≠ 200 ∧
       (google db now (some p) ip ua ent).1.setCookies = [] ∧
       (google db now (some p) ip ua ent).2.sessions = db.sessions) ∧
    (∀ (db : Db) (now : Nat) (auth : Option String) (bytes : String),
       anonymizedInvariant db →
       anonymizedInvariant (deleteSelf db now auth bytes).2) := by
  refine ⟨?_, ?_, ?_, ?_⟩
  · intro db now r ip ua ent u hu hdel
    cases hph : u.passwordHash with
    | none => simp [login, hu, hph, invalidCredentials]
    | some ph => simp [login, hu, hph, hdel, accountDisabledLogin]
  · intro db now p ip ua ent u em hpe hg hdel
    simp [google, hpe, hg, hdel]
  · intro db now p ip ua ent ex em hpe hg he hdel
    have hld : (linkGoogle ex p.sub p.picture now).deletedAt.isSome := hdel
    cases hupd : updateUser db (linkGoogle ex p.sub p.picture now) with
    | none => simp [google, hpe, hg, he, hupd, serverError]
    | some db1 =>
      have hdb1 := updateUser_some_eq hupd
      subst hdb1
      simp [google, hpe, hg, he, hupd, hld, accountDisabledGoogle]
  · intro db now auth bytes hinv
    cases auth with
    | none => exact hinv
    | some uid =>
      cases hfind : findUserById db uid with
      | none => simpa [deleteSelf, hfind] using hinv
      | some ex =>
        by_cases hdel : ex.deletedAt.isSome
        · simpa [deleteSelf, hfind, hdel] using hinv
        · rw [Bool.not_eq_true] at hdel
          cases hupd : updateUser db (anonymizedUser ex now ("deleted_" ++ bytes)) with
          | none => simpa [deleteSelf, hfind, hdel, hupd] using hinv
          | some db1 =>
            have hdb1 := updateUser_some_eq hupd
            subst hdb1
            simp only [deleteSelf, hfind, hdel, hupd, Bool.false_eq_true, if_false]
            intro v hv hvdel
            simp only [replaceById, List.mem_map] at hv
            obtain ⟨orig, horig, hveq⟩ := hv
            by_cases hid : (orig.id == (anonymizedUser ex now ("deleted_" ++ bytes)).id) = true
            · rw [if_pos hid] at hveq
              subst hveq
              exact ⟨rfl, rfl, rfl, rfl⟩
            · rw [if_neg hid] at hveq
              subst hveq
              exact hinv orig horig hvdel


/-- Witness for the amended C8 at concrete inputs: login on the anonymized
account, Google login resolving a deleted account by subject id and by
email, and `deleteSelf` on `aliceVerified`. -/
theorem C8_amended_witness :
    ((login mixedDb 100 { email := "deleted_cafebabe@deleted.local", password := "pw" }
        "ip" "ua" { sessionId := "s1", refreshSecret := "r1" }).1.status ≠ 200 ∧
      (login mixedDb 100 { email := "deleted_cafebabe@deleted.local", password := "pw" }
        "ip" "ua" { sessionId := "s1", refreshSecret := "r1" }).2 = mixedDb ∧
      (login mixedDb 100 { email := "deleted_cafebabe@deleted.local", password := "pw" }
        "ip" "ua" { sessionId := "s1", refreshSecret := "r1" }).1.setCookies = []) ∧
    (google googleDeletedDb 100
        (some { email := some "any@example.com", sub := "g9", name := none, picture := none })
        "ip" "ua"
        { userId := "u10", username := "green-fox",
          session := { sessionId := "s9", refreshSecret := "r9" } } =
      (accountDisabledGoogle, googleDeletedDb)) ∧
    ((google mixedDb 600
        (some { email := some "deleted_cafebabe@deleted.local", sub := "g77",
                name := some "X", picture := none })
        "ip" "ua"
        { userId := "u10", username := "green-fox",
          session := { sessionId := "s9", refreshSecret := "r9" } }).1.status ≠ 200 ∧
      (google mixedDb 600
        (some { email := some "deleted_cafebabe@deleted.local", sub := "g77",
                name := some "X", picture := none })
        "ip" "ua"
        { userId := "u10", username := "green-fox",
          session := { sessionId := "s9", refreshSecret := "r9" } }).1.setCookies = [] ∧
      (google mixedDb 600
        (some { email := some "deleted_cafebabe@deleted.local", sub := "g77",
                name := some "X", picture := none })
        "ip" "ua"
        { userId := "u10", username := "green-fox",
          session := { sessionId := "s9", refreshSecret := "r9" } }).2.sessions =
        mixedDb.sessions) ∧
    anonymizedInvariant (deleteSelf loginDb 500 (some "u1") "feedf00d").2 :=
  ⟨C8_amended_auth_and_anonymization.1 mixedDb 100
      { email := "deleted_cafebabe@deleted.local", password := "pw" } "ip" "ua"
      { sessionId := "s1", refreshSecret := "r1" } anonDeleted (by decide) (by decide),
   C8_amended_auth_and_anonymization.2.1 googleDeletedDb 100
      { email := some "any@example.com", sub := "g9", name := none, picture := none }
      "ip" "ua"
      { userId := "u10", username := "green-fox",
        session := { sessionId := "s9", refreshSecret := "r9" } }
      googleLinkedDeleted "any@example.com" (by decide) (by decide) (by decide),
   C8_amended_auth_and_anonymization.2.2.1 mixedDb 600
      { email := some "deleted_cafebabe@deleted.local", sub := "g77",
        name := some "X", picture := none }
      "ip" "ua"
      { userId := "u10", username := "green-fox",
        session := { sessionId := "s9", refreshSecret := "r9" } }
      anonDeleted "deleted_cafebabe@deleted.local" (by decide) (by decide)
      (by decide) (by decide),
   C8_amended_auth_and_anonymization.2.2.2 loginDb 500 (some "u1") "feedf00d"
      (by decide)⟩

/-- C9 counterexample: when the anonymization transaction fails (here: the
random suffix collides with an already-anonymized account's unique email and
username, so the update hits a unique-violation), the error propagates out
of the uncaught `await prisma.$transaction(...)` and the handler never
reaches the `clearCookie` calls: the response clears no cookie at all,
contradicting the claim's transaction-failure path. -/
theorem C9_counterexample :
  deleteSelf mixedDb 500 (some "u1") "cafebabe" = (serverError, mixedDb) ∧
  serverError.clearCookies = [] := by
  decide

/-- C10 counterexample: a registration request carrying `initialRole` =
`ADMIN` is rejected by `registerSchema`'s enum with a 400 before the handler
runs, so no account is created at all — contradicting the claim that every
value other than EXPERT/ORGANIZATION creates the account with no persona
row. -/
theorem C10_counterexample :
  register emptyDb 100 true
      { email := "c@x.com", password := "pw123456", name := "Cy",
        promotionalEmails := none, initialRole := some "ADMIN" }
      { userId := "u3", username := "green-owl", emailToken := "tok3" } =
    ({ status := 400, body := { message := "Bad Request" } }, emptyDb) := by
  decide

/-- C9 amended: `deleteSelf` clears both the `accessToken` and
`refreshToken` cookies on the anonymization-success path and on the
already-deleted no-op path (in both cases with `clearCookie` called without
a path option, so the clear directive is not scoped to
`/api/auth/refresh`); when the anonymization transaction fails, the error
propagates and no cookie is cleared at all. -/
theorem C9_amended_cookie_clearing :
    (∀ (db : Db) (now : Nat) (uid bytes : String) (ex : User),
       findUserById db uid = some ex → ex.deletedAt = none →
       updateUserConflict db (anonymizedUser ex now ("deleted_" ++ bytes)) = false →
       (deleteSelf db now (some uid) bytes).1.clearCookies =
         [ { name := "accessToken", path := none },
           { name := "refreshToken", path := none } ]) ∧
    (∀ (db : Db) (now : Nat) (uid bytes : String) (ex : User),
       findUserById db uid = some ex → ex.deletedAt.isSome →
       (deleteSelf db now (some uid) bytes).1.clearCookies =
         [ { name := "accessToken", path := none },
           { name := "refreshToken", path := none } ]) ∧
    (∀ (db : Db) (now : Nat) (uid bytes : String) (ex : User),
       findUserById db uid = some ex → ex.deletedAt = none →
       updateUserConflict db (anonymizedUser ex now ("deleted_" ++ bytes)) = true →
       (deleteSelf db now (some uid) bytes).1.clearCookies = []) := by
  refine ⟨?_, ?_, ?_⟩
  · intro db now uid bytes ex hfind hlive hnoconf
    have hupd : updateUser db (anonymizedUser ex now ("deleted_" ++ bytes)) =
        some { db with users := replaceById db.users (anonymizedUser ex now ("deleted_" ++ bytes)) } := by
      simp [updateUser, hnoconf]
    simp [deleteSelf, hfind, hlive, hupd, deleteSelfOk]
  · intro db now uid bytes ex hfind hdel
    simp [deleteSelf, hfind, hdel, deleteSelfOk]
  · intro db now uid bytes ex hfind hlive hconf
    have hupd : updateUser db (anonymizedUser ex now ("deleted_" ++ bytes)) = none := by
      simp [updateUser, hconf]
    simp [deleteSelf, hfind, hlive, hupd, serverError]


/-- Witness for the amended C9 at concrete inputs: anonymizing
`aliceVerified` in `loginDb` (success), `deleteSelf` on the already-deleted
`anonDeleted` (no-op), and the colliding-suffix failure in `mixedDb`. -/
theorem C9_amended_witness :
    (deleteSelf loginDb 500 (some "u1") "feedf00d").1.clearCookies =
      [ { name := "accessToken", path := none },
        { name := "refreshToken", path := none } ] ∧
    (deleteSelf mixedDb 500 (some "u9") "beefbeef").1.clearCookies =
      [ { name := "accessToken", path := none },
        { name := "refreshToken", path := none } ] ∧
    (deleteSelf mixedDb 500 (some "u1") "cafebabe").1.clearCookies = [] :=
  ⟨C9_amended_cookie_clearing.1 loginDb 500 "u1" "feedf00d" aliceVerified
      (by decide) (by decide) (by decide),
   C9_amended_cookie_clearing.2.1 mixedDb 500 "u9" "beefbeef" anonDeleted
      (by decide) (by decide),
   C9_amended_cookie_clearing.2.2 mixedDb 500 "u1" "cafebabe" aliceVerified
      (by decide) (by decide) (by decide)⟩

/-- C10 amended: registration never creates an Admin persona row under any
input; an `initialRole` outside the schema enum (USER, EXPERT,
ORGANIZATION) — including ADMIN — is rejected with a 400 and no state
change at all; and the values USER and absent create no persona row
(Expert/Organization tables unchanged). -/
theorem C10_amended_no_admin_persona :
    (∀ (db : Db) (now : Nat) (chk : Bool) (r : RegisterRequest)
       (ent : RegisterEntropy),
       (register db now chk r ent).2.adminProfiles = db.adminProfiles) ∧
    (∀ (db : Db) (now : Nat) (chk : Bool) (r : RegisterRequest)
       (ent : RegisterEntropy) (rl : String),
       r.initialRole = some rl → rl ≠ "USER" → rl ≠ "EXPERT" →
       rl ≠ "ORGANIZATION" →
       (register db now chk r ent).1.status = 400 ∧
       (register db now chk r ent).2 = db) ∧
    (∀ (db : Db) (now : Nat) (chk : Bool) (r : RegisterRequest)
       (ent : RegisterEntropy),
       (r.initialRole = none ∨ r.initialRole = some "USER") →
       (register db now chk r ent).2.expertProfiles = db.expertProfiles ∧
       (register db now chk r ent).2.orgProfiles = db.orgProfiles) := by
  refine ⟨?_, ?_, ?_⟩
  · intro db now chk r ent
    by_cases hv : registerSchemaValid r
    case neg => simp [register, hv]
    by_cases hc : chk = true
    case neg =>
      rw [Bool.not_eq_true] at hc
      simp [register, hv, hc]
    cases hfe : findUserByEmail db r.email with
    | some u0 => simp [register, hv, hc, hfe]
    | none =>
      simp only [register, hv, hc, hfe, if_true, if_false, not_true,
        not_false_iff, ite_true, ite_false]
      split
      · rfl
      · rename_i db1 heq
        obtain ⟨hdb1, _⟩ := createUser_some_eq heq
        subst hdb1
        simp [createPersonaRows_admin]
  · intro db now chk r ent rl hrl hne1 hne2 hne3
    have hv : registerSchemaValid r = false := by
      simp [registerSchemaValid, hrl, hne1, hne2, hne3]
    constructor
    · simp [register, hv]
    · simp [register, hv]
  · intro db now chk r ent hrole
    by_cases hv : registerSchemaValid r
    case neg => simp [register, hv]
    by_cases hc : chk = true
    case neg =>
      rw [Bool.not_eq_true] at hc
      simp [register, hv, hc]
    cases hfe : findUserByEmail db r.email with
    | some u0 => simp [register, hv, hc, hfe]
    | none =>
      simp only [register, hv, hc, hfe, if_true, if_false, not_true,
        not_false_iff, ite_true, ite_false]
      split
      · exact ⟨rfl, rfl⟩
      · rename_i db1 heq
        obtain ⟨hdb1, _⟩ := createUser_some_eq heq
        subst hdb1
        rcases hrole with hrole | hrole <;>
          simp [createPersonaRows, hrole]


/-- Witness for the amended C10 at concrete inputs: an ADMIN role request is
rejected with no state change, a USER role request and an EXPERT role
request leave the Admin persona table unchanged. -/
theorem C10_amended_witness :
    (register emptyDb 100 true
      { email := "c@x.com", password := "pw123456", name := "Cy",
        promotionalEmails := none, initialRole := some "EXPERT" }
      { userId := "u3", username := "green-owl", emailToken := "tok3" }).2.adminProfiles =
      emptyDb.adminProfiles ∧
    ((register emptyDb 100 true
      { email := "c@x.com", password := "pw123456", name := "Cy",
        promotionalEmails := none, initialRole := some "ADMIN" }
      { userId := "u3", username := "green-owl", emailToken := "tok3" }).1.status = 400 ∧
     (register emptyDb 100 true
      { email := "c@x.com", password := "pw123456", name := "Cy",
        promotionalEmails := none, initialRole := some "ADMIN" }
      { userId := "u3", username := "green-owl", emailToken := "tok3" }).2 = emptyDb) ∧
    ((register emptyDb 100 true
      { email := "c@x.com", password := "pw123456", name := "Cy",
        promotionalEmails := none, initialRole := some "USER" }
      { userId := "u3", username := "green-owl", emailToken := "tok3" }).2.expertProfiles =
      emptyDb.expertProfiles ∧
     (register emptyDb 100 true
      { email := "c@x.com", password := "pw123456", name := "Cy",
        promotionalEmails := none, initialRole := some "USER" }
      { userId := "u3", username := "green-owl", emailToken := "tok3" }).2.orgProfiles =
      emptyDb.orgProfiles) :=
  ⟨C10_amended_no_admin_persona.1 emptyDb 100 true
      { email := "c@x.com", password := "pw123456", name := "Cy",
        promotionalEmails := none, initialRole := some "EXPERT" }
      { userId := "u3", username := "green-owl", emailToken := "tok3" },
   C10_amended_no_admin_persona.2.1 emptyDb 100 true
      { email := "c@x.com", password := "pw123456", name := "Cy",
        promotionalEmails := none, initialRole := some "ADMIN" }
      { userId := "u3", username := "green-owl", emailToken := "tok3" }
      "ADMIN" rfl (by decide) (by decide) (by decide),
   C10_amended_no_admin_persona.2.2 emptyDb 100 true
      { email := "c@x.com", password := "pw123456", name := "Cy",
        promotionalEmails := none, initialRole := some "USER" }
      { userId := "u3", username := "green-owl", emailToken := "tok3" }
      (Or.inr rfl)⟩

end DigitalOffices
